import Mathlib

/-!
Verification of the LinkedIn posting agent against its design specification.

The development shallowly embeds the Python sources:
  `src/utils/storage.py`   (StorageManager: the Progress Store),
  `src/nodes/content_generator.py` (ContentGeneratorNode),
  `src/nodes/approval_handler.py`  (ApprovalHandlerNode),
  `src/nodes/linkedin_poster.py`   (LinkedInPosterNode),
  `src/agent.py`           (the LangGraph orchestrator).

Post text is modelled as `List Char`.  Timestamps (`datetime.now().isoformat()`)
are threaded as explicit `String` parameters.  Calls out to the external text
generation and publishing capabilities are threaded as explicit parameters
holding the value the call returned, exactly at the call sites of the source.
-/

namespace LinkedInAgent

/-- TOTAL_DAYS from `config/settings.py`. -/
def TOTAL_DAYS : Nat := 90

/-- MAX_POST_LENGTH from `config/settings.py` (LinkedIn character limit). -/
def MAX_POST_LENGTH : Nat := 3000

/-- The `pending_approval` snapshot stored by
`ApprovalHandlerNode.request_approval` (a dict with keys
`content`, `day`, `topic`, `approved_at`). -/
structure PendingSnapshot where
  content : List Char
  day : Nat
  topic : String
  approved_at : String
deriving Repr, DecidableEq

/-- One element of `posted_items` written by `StorageManager.add_to_history`. -/
structure PostedItem where
  day : Nat
  topic : String
  content : List Char
  linkedin_post_id : Option String
  posted_at : String
  char_count : Nat
deriving Repr, DecidableEq

/-- The history file (`posted_history.json`):
`{posted_items, last_updated, total_posts}`. -/
structure HistoryFile where
  posted_items : List PostedItem
  last_updated : Option String
  total_posts : Nat
deriving Repr, DecidableEq

/-- The state file (`agent_state.json`):
`{current_day, started_at, last_post_date, pending_approval, status}`. -/
structure StateFile where
  current_day : Nat
  started_at : Option String
  last_post_date : Option String
  pending_approval : Option PendingSnapshot
  status : String
deriving Repr, DecidableEq

/-- The two persisted files managed by one `StorageManager`. -/
structure Store where
  state : StateFile
  history : HistoryFile
deriving Repr, DecidableEq

/-- The default state file written by `StorageManager._ensure_data_files`
and by `reset_journey`. -/
def initialStateFile : StateFile :=
  { current_day := 1
    started_at := none
    last_post_date := none
    pending_approval := none
    status := "not_started" }

/-- The default history file written by `StorageManager._ensure_data_files`
and by `reset_journey`. -/
def initialHistoryFile : HistoryFile :=
  { posted_items := []
    last_updated := none
    total_posts := 0 }

/-- A fresh store, as left by `StorageManager._ensure_data_files` on first run. -/
def initialStore : Store :=
  { state := initialStateFile, history := initialHistoryFile }

/-- StorageManager.add_to_history: append one posted item, update
`last_updated` and `total_posts`. -/
def add_to_history (s : Store) (day : Nat) (topic : String) (content : List Char)
    (linkedin_post_id : Option String) (now : String) : Store :=
  let item : PostedItem :=
    { day := day
      topic := topic
      content := content
      linkedin_post_id := linkedin_post_id
      posted_at := now
      char_count := content.length }
  let items := s.history.posted_items ++ [item]
  { s with history :=
      { posted_items := items
        last_updated := some now
        total_posts := items.length } }

/-- StorageManager.get_posted_days: the `day` field of every history item. -/
def get_posted_days (s : Store) : List Nat :=
  s.history.posted_items.map (·.day)

/-- StorageManager.is_day_posted: membership of `day` in `get_posted_days`. -/
def is_day_posted (s : Store) (day : Nat) : Bool :=
  (get_posted_days s).contains day

/-- StorageManager.get_current_day. -/
def get_current_day (s : Store) : Nat :=
  s.state.current_day

/-- StorageManager.increment_day: advance `current_day` by one, but only
while it is strictly below 90. -/
def increment_day (s : Store) : Store :=
  let current := get_current_day s
  if current < 90 then
    { s with state := { s.state with current_day := current + 1 } }
  else
    s

/-- StorageManager.set_pending_approval: store the snapshot and set
`status` to `pending_approval`. -/
def set_pending_approval (s : Store) (content : PendingSnapshot) : Store :=
  { s with state :=
      { s.state with
        pending_approval := some content
        status := "pending_approval" } }

/-- StorageManager.clear_pending_approval: drop the snapshot and set
`status` to `active`. -/
def clear_pending_approval (s : Store) : Store :=
  { s with state :=
      { s.state with
        pending_approval := none
        status := "active" } }

/-- StorageManager.start_journey: reset `current_day` to 1, stamp
`started_at`, set `status` to `active`.  The source does not touch
`pending_approval` here. -/
def start_journey (s : Store) (now : String) : Store :=
  { s with state :=
      { s.state with
        current_day := 1
        started_at := some now
        status := "active" } }

/-- StorageManager.mark_post_completed: stamp `last_post_date`, then
`increment_day`.  (The `day` argument of the source is unused in the update.) -/
def mark_post_completed (s : Store) (_day : Nat) (now : String) : Store :=
  increment_day { s with state := { s.state with last_post_date := some now } }

/-- StorageManager.reset_journey: rewrite both files with their defaults. -/
def reset_journey (_s : Store) : Store :=
  { state := initialStateFile, history := initialHistoryFile }

/-- The store update performed by the success branch of
`LinkedInPosterNode.post_content`: `add_to_history`, then
`mark_post_completed`, then `clear_pending_approval`.  This is the
`recordPublished` operation of the design. -/
def recordPublished (s : Store) (day : Nat) (topic : String) (content : List Char)
    (externalId : Option String) (now : String) : Store :=
  clear_pending_approval
    (mark_post_completed (add_to_history s day topic content externalId now) day now)

/-- The JourneyState invariant of the design: the pending snapshot is
present exactly when `status` is `pending_approval`. -/
def PendingInv (s : Store) : Prop :=
  s.state.pending_approval ≠ none ↔ s.state.status = "pending_approval"

instance (s : Store) : Decidable (PendingInv s) := by
  unfold PendingInv
  infer_instance

/-- A store holding an in-flight pending draft, as left by
`set_pending_approval` (used as a concrete test state). -/
def pendingStore : Store :=
  { state :=
      { current_day := 5
        started_at := some "t0"
        last_post_date := none
        pending_approval :=
          some { content := ['h', 'i'], day := 5, topic := "T", approved_at := "t1" }
        status := "pending_approval" }
    history := initialHistoryFile }

/-- A store on the final curriculum day (current_day = 90, used as a
concrete test state). -/
def dayNinetyStore : Store :=
  { state :=
      { current_day := 90
        started_at := some "t0"
        last_post_date := none
        pending_approval := none
        status := "active" }
    history := initialHistoryFile }

/-- One curriculum item as loaded from the curriculum file
(`{day, topic, category, difficulty, key_points, story_angle}`). -/
structure CurriculumEntry where
  day : Nat
  topic : String
  category : String
  difficulty : String
  key_points : List String
  story_angle : String
deriving Repr, DecidableEq

/-- StorageManager.get_topic_for_day: the first curriculum item whose
`day` field equals the query. -/
def get_topic_for_day (curriculum : List CurriculumEntry) (day : Nat) :
    Option CurriculumEntry :=
  curriculum.find? (fun item => item.day == day)

/-- Python `content[-200:]` generalized: the final `n` characters of `l`
(all of `l` when it is shorter). -/
def lastChars (n : Nat) (l : List Char) : List Char :=
  l.drop (l.length - n)

/-- Whether the two-character substring of a paragraph break (newline,
newline) occurs at index `i` of `l`. -/
def isBreakAt (l : List Char) (i : Nat) : Bool :=
  (l.get? i == some '\n') && (l.get? (i + 1) == some '\n')

/-- All indices of `l` at which a paragraph break occurs. -/
def breakPositions (l : List Char) : List Nat :=
  (List.range l.length).filter (fun i => isBreakAt l i)

/-- Python rfind on the two-newline substring: the largest occurrence
index, or none when the substring does not occur (Python returns -1,
which fails the positive threshold comparison in the caller). -/
def lastParaBreak (l : List Char) : Option Nat :=
  (breakPositions l).max?

/-- ContentGeneratorNode._truncate_content.  The paragraph-break branch
guard is `last_para > len(truncated) * 0.7` in the source; under the
enclosing `len(content) > MAX_POST_LENGTH` check, `truncated` always has
length `MAX_POST_LENGTH - 100 = 2900`, and the Python float product
`2900 * 0.7` evaluates to the double `2029.9999999999998` (the literal
`0.7` rounds below seven tenths), so the integer comparison holds exactly
for `2030 ≤ last_para`. -/
def truncate_content (content : List Char) : List Char :=
  if content.length ≤ MAX_POST_LENGTH then content
  else
    let truncated := content.take (MAX_POST_LENGTH - 100)
    match lastParaBreak truncated with
    | some lastPara =>
        if 2030 ≤ lastPara then truncated.take lastPara else truncated
    | none => truncated

/-- The separator the generator places between content and appended
hashtags: newline, newline, three dashes, newline. -/
def hashtagSep : List Char := ['\n', '\n', '-', '-', '-', '\n']

/-- The hashtag-appending step shared by `generate_post` and
`regenerate_post` (`if the hash character does not occur in
content[-200:]`): append the separator plus the hashtags returned by the
secondary generation call (threaded as `hashtags`); otherwise return the
content unchanged. -/
def hashtag_step (content : List Char) (hashtags : List Char) : List Char :=
  if (lastChars 200 content).contains '#' then content
  else content ++ hashtagSep ++ hashtags

/-- The result dict of `generate_post` and `regenerate_post` (keys absent
in a given branch carry their default value here). -/
structure GenResult where
  success : Bool
  error : Option String := none
  duplicate : Bool := false
  day : Nat := 0
  topic : String := ""
  category : String := ""
  difficulty : String := ""
  content : List Char := []
  char_count : Nat := 0
  regenerated : Bool := false
deriving Repr, DecidableEq

/-- ContentGeneratorNode.generate_post.  The text returned by the story
generation call is threaded as `llmContent`, the text returned by the
hashtag call as `hashtags`. -/
def generate_post (store : Store) (curriculum : List CurriculumEntry) (day : Nat)
    (llmContent hashtags : List Char) : GenResult :=
  match get_topic_for_day curriculum day with
  | none =>
      { success := false
        error := some ("No topic found for day " ++ toString day) }
  | some topic_info =>
      if is_day_posted store day then
        { success := false
          error := some ("Day " ++ toString day ++ " has already been posted")
          duplicate := true }
      else
        let content :=
          if MAX_POST_LENGTH < llmContent.length then truncate_content llmContent
          else llmContent
        let content := hashtag_step content hashtags
        { success := true
          day := day
          topic := topic_info.topic
          category := topic_info.category
          difficulty := topic_info.difficulty
          content := content
          char_count := content.length }

/-- ContentGeneratorNode.regenerate_post.  The `feedback` argument only
changes the prompt sent to the generation capability, so here it only
tags the call; the store is consulted only for the prompt context.
The source performs no `is_day_posted` check on this path. -/
def regenerate_post (_store : Store) (curriculum : List CurriculumEntry) (day : Nat)
    (_feedback : Option String) (llmContent hashtags : List Char) : GenResult :=
  match get_topic_for_day curriculum day with
  | none =>
      { success := false
        error := some ("No topic found for day " ++ toString day) }
  | some topic_info =>
      let content :=
        if MAX_POST_LENGTH < llmContent.length then truncate_content llmContent
        else llmContent
      let content := hashtag_step content hashtags
      { success := true
        day := day
        topic := topic_info.topic
        category := topic_info.category
        difficulty := topic_info.difficulty
        content := content
        char_count := content.length
        regenerated := true }

/-- A one-entry curriculum seeded with day 1 (concrete test data). -/
def curriculum1 : List CurriculumEntry :=
  [{ day := 1
     topic := "What is AI?"
     category := "Basics"
     difficulty := "Beginner"
     key_points := []
     story_angle := "" }]

/-- A store whose history already contains a committed item for day 1
(concrete test state). -/
def postedStore : Store :=
  { state :=
      { current_day := 2
        started_at := some "t0"
        last_post_date := some "t1"
        pending_approval := none
        status := "active" }
    history :=
      { posted_items :=
          [{ day := 1
             topic := "What is AI?"
             content := ['h', 'i']
             linkedin_post_id := some "mock_post_1"
             posted_at := "t1"
             char_count := 2 }]
        last_updated := some "t1"
        total_posts := 1 } }

/-- ASCII model of the Python str.lower applied to one character (the only
characters the decision strings use). -/
def toLowerChar (c : Char) : Char :=
  if 'A' ≤ c ∧ c ≤ 'Z' then Char.ofNat (c.toNat + 32) else c

/-- ASCII model of Python str.lower on a whole string. -/
def toLowerStr (s : String) : String :=
  String.mk (s.data.map toLowerChar)

/-- The normalization dict of `ApprovalHandlerNode.get_user_decision`
(`choice_map.get(choice, default approve)`), written as the functional
lookup it denotes. -/
def choice_map_get (choice : String) : String :=
  if choice = "a" then "approve"
  else if choice = "approve" then "approve"
  else if choice = "r" then "reject"
  else if choice = "reject" then "reject"
  else if choice = "e" then "edit"
  else if choice = "edit" then "edit"
  else if choice = "s" then "skip"
  else if choice = "skip" then "skip"
  else if choice = "q" then "quit"
  else if choice = "quit" then "quit"
  else "approve"

/-- ApprovalHandlerNode.get_user_decision: lowercase the console answer
(threaded as `raw`), then normalize it through the dict with default
approve. -/
def get_user_decision (raw : String) : String :=
  choice_map_get (toLowerStr raw)

/-- The result dict of the approval workflow (keys absent in a given
branch carry their default value here). -/
structure ApprovalResult where
  decision : String
  content : List Char := []
  day : Nat := 0
  topic : String := ""
  edited : Bool := false
  feedback : Option String := none
  error : Option String := none
  auto_approved : Bool := false
deriving Repr, DecidableEq

/-- ApprovalHandlerNode.request_approval.  The interactive calls are
threaded: `decision` is the value returned by `get_user_decision`,
`editedContent` the value returned by the interactive edit session
(get_edit_content, presentation layer), `finalChoice` the answer to the
post-edit confirmation, and `rejectionFeedback` the value returned by
get_rejection_feedback.  Note the pending-approval store update tests the
INITIAL `decision` value, not the resolved one. -/
def request_approval (store : Store) (content_data : GenResult) (decision : String)
    (editedContent : List Char) (finalChoice : String)
    (rejectionFeedback : Option String) (now : String) : ApprovalResult × Store :=
  let result : ApprovalResult :=
    { decision := decision
      content := content_data.content
      day := content_data.day
      topic := content_data.topic }
  let result :=
    if decision = "edit" then
      let r := { result with content := editedContent, edited := true }
      if toLowerStr finalChoice = "y" then { r with decision := "approve" }
      else { r with decision := "reject" }
    else if decision = "reject" then
      { result with feedback := rejectionFeedback }
    else result
  let store1 :=
    if decision = "approve" ∨ decision = "edit" then
      set_pending_approval store
        { content := result.content
          day := content_data.day
          topic := content_data.topic
          approved_at := now }
    else store
  (result, store1)

/-- ApprovalHandlerNode.auto_approve. -/
def auto_approve (content_data : GenResult) : ApprovalResult :=
  { decision := "approve"
    content := content_data.content
    day := content_data.day
    topic := content_data.topic
    auto_approved := true }

/-- The response dict of the publishing capability
(`createPost -> {success, post_id?, error?, detail?}`). -/
structure PublishResponse where
  success : Bool
  post_id : Option String := none
  error : Option String := none
  detail : Option String := none
deriving Repr, DecidableEq

/-- The posting-result dicts produced by LinkedInPosterNode (one variant
per branch of post_content, handle_skip and the node entry point). -/
inductive PostOutcome where
  | posted (post_id : String) (day : Nat) (topic : String) (posted_at : String)
      (is_mock : Bool)
  | failed (error : Option String) (detail : Option String)
  | skipped (day : Nat) (topic : String)
  | quitAction
  | unknown (error : String)
deriving Repr, DecidableEq

/-- The value of `result.get of success, default False` on a posting
result dict. -/
def PostOutcome.isSuccess : PostOutcome → Bool
  | .posted _ _ _ _ _ => true
  | .failed _ _ => false
  | .skipped _ _ => true
  | .quitAction => false
  | .unknown _ => false

/-- LinkedInPosterNode.post_content.  The publish API response is
threaded as `apiResult`.  On success: append to history, mark the post
completed, clear the pending draft; on failure: return the error and
detail and leave the store untouched. -/
def post_content (store : Store) (apiResult : PublishResponse) (content : List Char)
    (day : Nat) (topic : String) (now : String) (is_mock : Bool) :
    PostOutcome × Store :=
  if apiResult.success then
    let post_id := apiResult.post_id.getD ""
    let store1 := add_to_history store day topic content (some post_id) now
    let store2 := mark_post_completed store1 day now
    let store3 := clear_pending_approval store2
    (.posted post_id day topic now is_mock, store3)
  else
    (.failed apiResult.error apiResult.detail, store)

/-- LinkedInPosterNode.handle_skip: clear the pending draft and advance
the day without posting. -/
def handle_skip (store : Store) (day : Nat) (topic : String) : PostOutcome × Store :=
  let store1 := clear_pending_approval store
  let store2 := increment_day store1
  (.skipped day topic, store2)

/-- The LangGraph state dict (AgentState in agent.py); keys absent from
the dict carry the defaults here, matching `state.get` with a falsy
default at every read site. -/
structure AgentState where
  current_day : Option Nat := none
  auto_approve : Bool := false
  regenerate_feedback : Option String := none
  generated_content : Option GenResult := none
  needs_approval : Bool := false
  approval_result : Option ApprovalResult := none
  posting_result : Option PostOutcome := none
  needs_regeneration : Bool := false
  workflow_complete : Bool := false
  quit_requested : Bool := false
deriving Repr, DecidableEq

/-- Python truthiness of the feedback value read by the generator node
(`if feedback:`): present and non-empty. -/
def feedbackTruthy : Option String → Bool
  | none => false
  | some s => s != ""

/-- The externally supplied values consumed by one
generate→approve→publish cycle of the workflow: the generation and
hashtag responses, the console interactions of the approval gate, the
publish API response, and the timestamp. -/
structure IterInput where
  llmContent : List Char
  hashtags : List Char
  decisionRaw : String
  editedContent : List Char := []
  finalChoice : String := "y"
  rejectionFeedback : Option String := none
  publish : PublishResponse := { success := true, post_id := some "mock_post_1" }
  now : String := "t"
deriving Repr, DecidableEq

/-- ContentGeneratorNode entry point (its `__call__`): pick the day from
the graph state (falling back to the store), regenerate when the feedback
value is truthy, generate otherwise. -/
def content_generator_call (curriculum : List CurriculumEntry) (inp : IterInput)
    (st : AgentState) (store : Store) : AgentState :=
  let day := st.current_day.getD (get_current_day store)
  let result :=
    if feedbackTruthy st.regenerate_feedback then
      regenerate_post store curriculum day st.regenerate_feedback inp.llmContent
        inp.hashtags
    else
      generate_post store curriculum day inp.llmContent inp.hashtags
  { st with generated_content := some result, needs_approval := result.success }

/-- ApprovalHandlerNode entry point (its `__call__`): short-circuit a
failed draft to an error decision, auto-approve when the flag is set,
otherwise run the interactive approval workflow. -/
def approval_handler_call (inp : IterInput) (st : AgentState) (store : Store) :
    AgentState × Store :=
  match st.generated_content with
  | some content_data =>
      if content_data.success then
        if st.auto_approve then
          ({ st with approval_result := some (auto_approve content_data) }, store)
        else
          let pair := request_approval store content_data
            (get_user_decision inp.decisionRaw) inp.editedContent inp.finalChoice
            inp.rejectionFeedback inp.now
          ({ st with approval_result := some pair.1 }, pair.2)
      else
        let errResult : ApprovalResult :=
          { decision := "error"
            error := some (content_data.error.getD "Content generation failed") }
        ({ st with approval_result := some errResult }, store)
  | none =>
      let errResult : ApprovalResult :=
        { decision := "error", error := some "Content generation failed" }
      ({ st with approval_result := some errResult }, store)

/-- LinkedInPosterNode entry point (its `__call__`), dispatching on the
approval decision.  Note the reject branch sets `needs_regeneration` and
no branch ever resets it. -/
def linkedin_poster_call (inp : IterInput) (st : AgentState) (store : Store)
    (is_mock : Bool) : AgentState × Store :=
  match st.approval_result with
  | some ar =>
      if ar.decision = "approve" then
        let pair := post_content store inp.publish ar.content ar.day ar.topic
          inp.now is_mock
        ({ st with posting_result := some pair.1,
                   workflow_complete := pair.1.isSuccess }, pair.2)
      else if ar.decision = "skip" then
        let pair := handle_skip store ar.day ar.topic
        ({ st with posting_result := some pair.1, workflow_complete := true }, pair.2)
      else if ar.decision = "reject" then
        ({ st with needs_regeneration := true,
                   regenerate_feedback := ar.feedback,
                   workflow_complete := false }, store)
      else if ar.decision = "quit" then
        ({ st with posting_result := some .quitAction,
                   workflow_complete := true,
                   quit_requested := true }, store)
      else
        let outcome : PostOutcome := .unknown ("Unknown decision: " ++ ar.decision)
        ({ st with posting_result := some outcome,
                   workflow_complete := true }, store)
  | none =>
      ({ st with posting_result := some (.unknown "Unknown decision: None"),
                 workflow_complete := true }, store)

/-- LinkedInPostingAgent._route_after_generation. -/
def route_after_generation (st : AgentState) : String :=
  match st.generated_content with
  | some g => if g.success then "needs_approval" else "error"
  | none => "error"

/-- LinkedInPostingAgent._route_after_posting. -/
def route_after_posting (st : AgentState) : String :=
  if st.needs_regeneration then "regenerate" else "complete"

/-- Which terminal edge ended a workflow run: the END edge out of the
generation stage, the END edge out of the publishing stage, or neither
within the supplied inputs (the run is still looping). -/
inductive RunExit where
  | generationError
  | completedAfterPosting
  | stillLooping
deriving Repr, DecidableEq

/-- The compiled LangGraph loop built by LinkedInPostingAgent._build_graph:
entry at the generation node; conditional edge to END on generation
failure; otherwise approval then publishing; conditional edge back to the
generation node when `_route_after_posting` yields regenerate, END
otherwise.  One IterInput is consumed per cycle; the run reports which
terminal edge it took, or stillLooping when the inputs ran out before a
terminal edge was reached. -/
def workflow_run (curriculum : List CurriculumEntry) (is_mock : Bool) :
    List IterInput → AgentState → Store → RunExit × AgentState × Store
  | [], st, store => (.stillLooping, st, store)
  | inp :: rest, st, store =>
      let st1 := content_generator_call curriculum inp st store
      if route_after_generation st1 = "error" then (.generationError, st1, store)
      else
        let pair2 := approval_handler_call inp st1 store
        let pair3 := linkedin_poster_call inp pair2.1 pair2.2 is_mock
        if route_after_posting pair3.1 = "regenerate" then
          workflow_run curriculum is_mock rest pair3.1 pair3.2
        else (.completedAfterPosting, pair3.1, pair3.2)

/-- The initial graph state built by LinkedInPostingAgent.run. -/
def run_initial_state (day : Nat) (auto : Bool) : AgentState :=
  { current_day := some day, auto_approve := auto, workflow_complete := false }

/-- Cycle 1 of the C1 scenario: the user rejects, with no feedback. -/
def rejectCycle : IterInput :=
  { llmContent := ['D', 'a', 'y', ' ', '1', ' ', '#', 'A', 'I']
    hashtags := ['#', 'A', 'I']
    decisionRaw := "r" }

/-- Cycle 2 of the C1 scenario: the user approves and the publish call
succeeds. -/
def approveCycle : IterInput :=
  { llmContent := ['T', 'a', 'k', 'e', ' ', '2', ' ', '#', 'A', 'I']
    hashtags := ['#', 'A', 'I']
    decisionRaw := "a"
    publish := { success := true, post_id := some "mock_post_1" } }

/-- Cycle 3 of the C1 scenario: further responses, only consumed because
the back-edge is taken again after the approve. -/
def extraCycle : IterInput :=
  { llmContent := ['T', 'a', 'k', 'e', ' ', '3', ' ', '#', 'A', 'I']
    hashtags := ['#', 'A', 'I']
    decisionRaw := "a" }

end LinkedInAgent

namespace LinkedInAgent

theorem increment_day_history (s : Store) : (increment_day s).history = s.history := by
  simp only [increment_day, get_current_day]
  split <;> rfl

theorem increment_day_pending (s : Store) :
    (increment_day s).state.pending_approval = s.state.pending_approval := by
  simp only [increment_day, get_current_day]
  split <;> rfl

theorem increment_day_status (s : Store) :
    (increment_day s).state.status = s.state.status := by
  simp only [increment_day, get_current_day]
  split <;> rfl

theorem increment_day_current (s : Store) :
    (increment_day s).state.current_day =
      if s.state.current_day < 90 then s.state.current_day + 1
      else s.state.current_day := by
  simp only [increment_day, get_current_day]
  split <;> simp_all

/-- C2 counterexample: on day 90 the advance is NOT capped at
TOTAL_DAYS + 1 = 91 as claimed; `increment_day` refuses to move past 90,
so after `recordPublished(90, ...)` the current day is 90, not
`min (90 + 1) 91 = 91`. -/
theorem C2_counterexample :
    get_current_day (recordPublished dayNinetyStore 90 "T" ['h', 'i'] none "t2")
      ≠ min (90 + 1) (TOTAL_DAYS + 1) := by
  decide

/-- C2 (amended): for every store whose current day is `d` with
`d ≤ TOTAL_DAYS`, after `recordPublished(d, topic, content, externalId)`
the day `d` is posted and the current day is `min (d + 1) TOTAL_DAYS`
(the advance is capped at 90, not 91). -/
theorem C2_recordPublished_roundtrip (s : Store) (day : Nat) (topic : String)
    (content : List Char) (externalId : Option String) (now : String)
    (hcur : get_current_day s = day) (hle : day ≤ TOTAL_DAYS) :
    is_day_posted (recordPublished s day topic content externalId now) day = true ∧
    get_current_day (recordPublished s day topic content externalId now)
      = min (day + 1) TOTAL_DAYS := by
  unfold get_current_day at hcur
  unfold TOTAL_DAYS at hle ⊢
  constructor
  · simp [recordPublished, clear_pending_approval, is_day_posted, get_posted_days,
      increment_day_history, mark_post_completed, add_to_history]
  · simp only [recordPublished, clear_pending_approval, get_current_day,
      mark_post_completed, increment_day_current, add_to_history]
    simp only [hcur]
    split <;> omega

/-- C2 witness: concrete run of the amended round-trip on a fresh store at
day 1. -/
theorem C2_witness :
    is_day_posted (recordPublished initialStore 1 "What is AI?" ['h', 'i'] none "t0") 1
        = true ∧
    get_current_day (recordPublished initialStore 1 "What is AI?" ['h', 'i'] none "t0")
        = min (1 + 1) TOTAL_DAYS :=
  C2_recordPublished_roundtrip initialStore 1 "What is AI?" ['h', 'i'] none "t0"
    (by decide) (by decide)

/-- C4 counterexample: `start_journey` does not clear `pending_approval`
but does overwrite `status` with `active`, so from a state holding a
pending draft (which satisfies the invariant) it produces a state that
violates the invariant. -/
theorem C4_counterexample :
    PendingInv pendingStore ∧ ¬ PendingInv (start_journey pendingStore "t2") := by
  constructor
  · decide
  · decide

/-- C4 (amended): the pending-approval/status invariant holds in the
initial state and is preserved by `set_pending_approval`,
`clear_pending_approval`, `mark_post_completed`, `increment_day` and
`reset_journey`; `start_journey` preserves it only from states with no
pending draft. -/
theorem C4_pending_invariant :
    PendingInv initialStore ∧
    (∀ s p, PendingInv s → PendingInv (set_pending_approval s p)) ∧
    (∀ s, PendingInv s → PendingInv (clear_pending_approval s)) ∧
    (∀ s d now, PendingInv s → PendingInv (mark_post_completed s d now)) ∧
    (∀ s, PendingInv s → PendingInv (increment_day s)) ∧
    (∀ s, PendingInv s → PendingInv (reset_journey s)) ∧
    (∀ s now, PendingInv s → s.state.pending_approval = none →
      PendingInv (start_journey s now)) := by
  refine ⟨by decide, ?_, ?_, ?_, ?_, ?_, ?_⟩
  · intro s p _
    simp [PendingInv, set_pending_approval]
  · intro s _
    simp [PendingInv, clear_pending_approval]
  · intro s d now h
    unfold PendingInv at *
    simpa [mark_post_completed, increment_day_pending, increment_day_status] using h
  · intro s h
    unfold PendingInv at *
    simpa [increment_day_pending, increment_day_status] using h
  · intro s _
    unfold PendingInv reset_journey
    simp [initialStateFile]
  · intro s now _ hnone
    simp [PendingInv, start_journey, hnone]

/-- C4 witness: the preserved operations applied to concrete states. -/
theorem C4_witness :
    PendingInv
      (set_pending_approval initialStore
        { content := ['h', 'i'], day := 1, topic := "T", approved_at := "t1" }) ∧
    PendingInv (start_journey initialStore "t0") := by
  refine ⟨C4_pending_invariant.2.1 initialStore _ (by decide), ?_⟩
  exact C4_pending_invariant.2.2.2.2.2.2 initialStore "t0" (by decide) (by decide)

/-- C6: for every input longer than MAX_POST_LENGTH, the truncation output
has length at most MAX_POST_LENGTH; if a paragraph break occurs in the
hard-cut prefix at or after index 2030 (seventy percent of the cut point
2900), the output ends exactly at the last such break; otherwise the
output is the hard cut at MAX_POST_LENGTH - 100 characters. -/
theorem C6_truncation_law (content : List Char)
    (h : MAX_POST_LENGTH < content.length) :
    (truncate_content content).length ≤ MAX_POST_LENGTH ∧
    ((∃ q ∈ breakPositions (content.take (MAX_POST_LENGTH - 100)), 2030 ≤ q) →
      ∃ p ∈ breakPositions (content.take (MAX_POST_LENGTH - 100)),
        2030 ≤ p ∧
        (∀ q ∈ breakPositions (content.take (MAX_POST_LENGTH - 100)), q ≤ p) ∧
        truncate_content content = (content.take (MAX_POST_LENGTH - 100)).take p) ∧
    ((∀ q ∈ breakPositions (content.take (MAX_POST_LENGTH - 100)), q < 2030) →
      truncate_content content = content.take (MAX_POST_LENGTH - 100)) := by
  have hnot : ¬ content.length ≤ MAX_POST_LENGTH := by omega
  have hM : MAX_POST_LENGTH = 3000 := rfl
  have hT : (content.take (MAX_POST_LENGTH - 100)).length = 2900 := by
    rw [List.length_take]
    omega
  refine ⟨?_, ?_, ?_⟩
  · simp only [truncate_content, hnot, if_false]
    rcases hmax : lastParaBreak (content.take (MAX_POST_LENGTH - 100)) with _ | p
    · dsimp only
      omega
    · dsimp only
      split
      · rw [List.length_take]
        omega
      · omega
  · rintro ⟨q, hqmem, hq⟩
    rcases hmax : lastParaBreak (content.take (MAX_POST_LENGTH - 100)) with _ | p
    · exfalso
      have := List.max?_eq_none_iff.mp hmax
      rw [this] at hqmem
      simp at hqmem
    · have hiff := List.max?_eq_some_iff'.mp hmax
      refine ⟨p, hiff.1, le_trans hq (hiff.2 q hqmem), hiff.2, ?_⟩
      simp only [truncate_content, hnot, if_false]
      rw [hmax]
      dsimp only
      rw [if_pos (le_trans hq (hiff.2 q hqmem))]
  · intro hall
    simp only [truncate_content, hnot, if_false]
    rcases hmax : lastParaBreak (content.take (MAX_POST_LENGTH - 100)) with _ | p
    · dsimp only
    · dsimp only
      have hp := (List.max?_eq_some_iff'.mp hmax).1
      rw [if_neg (by have := hall p hp; omega)]

/-- C6 witness: the truncation law at a concrete 3001-character input with
no paragraph break. -/
theorem C6_witness :
    (truncate_content (List.replicate 3001 'a')).length ≤ MAX_POST_LENGTH ∧
    ((∃ q ∈ breakPositions ((List.replicate 3001 'a').take (MAX_POST_LENGTH - 100)),
        2030 ≤ q) →
      ∃ p ∈ breakPositions ((List.replicate 3001 'a').take (MAX_POST_LENGTH - 100)),
        2030 ≤ p ∧
        (∀ q ∈ breakPositions ((List.replicate 3001 'a').take (MAX_POST_LENGTH - 100)),
          q ≤ p) ∧
        truncate_content (List.replicate 3001 'a')
          = ((List.replicate 3001 'a').take (MAX_POST_LENGTH - 100)).take p) ∧
    ((∀ q ∈ breakPositions ((List.replicate 3001 'a').take (MAX_POST_LENGTH - 100)),
        q < 2030) →
      truncate_content (List.replicate 3001 'a')
        = (List.replicate 3001 'a').take (MAX_POST_LENGTH - 100)) :=
  C6_truncation_law (List.replicate 3001 'a')
    (by simp only [List.length_replicate, MAX_POST_LENGTH]; omega)

/-- C5: evaluation at the failing input.  On a fresh store with a day-1
curriculum entry, a generated text of exactly MAX_POST_LENGTH characters
with no hash character near the end passes the length check untruncated,
and the hashtag suffix is appended afterwards, so the returned draft is
successful, its char_count matches its content, but the content exceeds
MAX_POST_LENGTH. -/
theorem C5_hard_limit_violation :
    (generate_post initialStore curriculum1 1 (List.replicate MAX_POST_LENGTH 'a')
        ['#', 'A', 'I']).success = true ∧
    (generate_post initialStore curriculum1 1 (List.replicate MAX_POST_LENGTH 'a')
        ['#', 'A', 'I']).char_count
      = (generate_post initialStore curriculum1 1 (List.replicate MAX_POST_LENGTH 'a')
          ['#', 'A', 'I']).content.length ∧
    MAX_POST_LENGTH
      < (generate_post initialStore curriculum1 1 (List.replicate MAX_POST_LENGTH 'a')
          ['#', 'A', 'I']).content.length := by
  have hfind : get_topic_for_day curriculum1 1
      = some { day := 1, topic := "What is AI?", category := "Basics"
               difficulty := "Beginner", key_points := [], story_angle := "" } := by
    decide
  have hpost : is_day_posted initialStore 1 = false := by decide
  have hlast : lastChars 200 (List.replicate MAX_POST_LENGTH 'a')
      = List.replicate 200 'a' := by
    simp only [lastChars, List.length_replicate, List.drop_replicate, MAX_POST_LENGTH]
  have hhash : (List.replicate 200 'a').contains '#' = false := by decide
  have hstep : hashtag_step (List.replicate MAX_POST_LENGTH 'a') ['#', 'A', 'I']
      = List.replicate MAX_POST_LENGTH 'a' ++ hashtagSep ++ ['#', 'A', 'I'] := by
    unfold hashtag_step
    rw [hlast, hhash]
    simp
  have heval : generate_post initialStore curriculum1 1
      (List.replicate MAX_POST_LENGTH 'a') ['#', 'A', 'I']
      = { success := true
          day := 1
          topic := "What is AI?"
          category := "Basics"
          difficulty := "Beginner"
          content := List.replicate MAX_POST_LENGTH 'a' ++ hashtagSep ++ ['#', 'A', 'I']
          char_count := (List.replicate MAX_POST_LENGTH 'a' ++ hashtagSep
            ++ ['#', 'A', 'I']).length } := by
    unfold generate_post
    rw [hfind]
    dsimp only
    rw [hpost, if_neg (show ¬ (false = true) by simp),
      if_neg (by simp [List.length_replicate]), hstep]
  rw [heval]
  refine ⟨rfl, rfl, ?_⟩
  simp only [List.length_append, List.length_replicate, List.length_cons,
    List.length_nil, MAX_POST_LENGTH, hashtagSep]
  omega

/-- C7: hashtag law.  If the final 200 characters of the content contain
no hash character, the returned content is the original content with the
separator-plus-hashtags suffix appended (a suffix containing a hash
character whenever the hashtag call returned one); if they already
contain a hash character, the content is returned unchanged. -/
theorem C7_hashtag_law (content hashtags : List Char) :
    ((lastChars 200 content).contains '#' = false →
      hashtag_step content hashtags = content ++ (hashtagSep ++ hashtags) ∧
      ('#' ∈ hashtags → '#' ∈ hashtagSep ++ hashtags)) ∧
    ((lastChars 200 content).contains '#' = true →
      hashtag_step content hashtags = content) := by
  constructor
  · intro hno
    constructor
    · unfold hashtag_step
      rw [hno]
      simp
    · intro hmem
      exact List.mem_append_right _ hmem
  · intro hyes
    unfold hashtag_step
    rw [hyes]
    simp

/-- C7 witness: both branches of the hashtag law at concrete inputs. -/
theorem C7_witness :
    (hashtag_step ['h', 'i'] ['#', 'x'] = ['h', 'i'] ++ (hashtagSep ++ ['#', 'x']) ∧
      '#' ∈ hashtagSep ++ ['#', 'x']) ∧
    hashtag_step ['#', 'o', 'k'] ['#', 'x'] = ['#', 'o', 'k'] := by
  refine ⟨?_, ?_⟩
  · have h := (C7_hashtag_law ['h', 'i'] ['#', 'x']).1 (by decide)
    exact ⟨h.1, h.2 (by decide)⟩
  · exact (C7_hashtag_law ['#', 'o', 'k'] ['#', 'x']).2 (by decide)

/-- C3 counterexample: day 1 is already in committed history, yet
`regenerate_post` returns a new successful draft with no error rather
than failing with AlreadyPosted. -/
theorem C3_counterexample :
    is_day_posted postedStore 1 = true ∧
    (regenerate_post postedStore curriculum1 1 none ['h', 'i'] ['#', 'x']).success
      = true ∧
    (regenerate_post postedStore curriculum1 1 none ['h', 'i'] ['#', 'x']).error
      = none := by
  decide

/-- C3 (amended): `regenerate_post` performs no AlreadyPosted check at
all.  For every store and every day with a curriculum entry, even a day
already present in committed history, it returns a successful draft
marked regenerated and not flagged duplicate. -/
theorem C3_regenerate_has_no_duplicate_check (store : Store)
    (curriculum : List CurriculumEntry) (day : Nat) (feedback : Option String)
    (llmContent hashtags : List Char)
    (htopic : (get_topic_for_day curriculum day).isSome = true)
    (_hposted : is_day_posted store day = true) :
    (regenerate_post store curriculum day feedback llmContent hashtags).success
      = true ∧
    (regenerate_post store curriculum day feedback llmContent hashtags).regenerated
      = true ∧
    (regenerate_post store curriculum day feedback llmContent hashtags).duplicate
      = false := by
  rcases hfind : get_topic_for_day curriculum day with _ | e
  · rw [hfind] at htopic
    simp at htopic
  · unfold regenerate_post
    rw [hfind]
    simp

/-- C3 witness: the amended statement at a concrete store whose history
already holds day 1. -/
theorem C3_witness :
    (regenerate_post postedStore curriculum1 1 (some "more examples") ['o', 'k']
        ['#', 'x']).success = true ∧
    (regenerate_post postedStore curriculum1 1 (some "more examples") ['o', 'k']
        ['#', 'x']).regenerated = true ∧
    (regenerate_post postedStore curriculum1 1 (some "more examples") ['o', 'k']
        ['#', 'x']).duplicate = false :=
  C3_regenerate_has_no_duplicate_check postedStore curriculum1 1 (some "more examples")
    ['o', 'k'] ['#', 'x'] (by decide) (by decide)

/-- C8: publish-failure atomicity.  When the publish API response has
success false, post_content returns the failure carrying the error and
detail and the store is unchanged: in particular the history file, the
current day and the pending-approval snapshot are all as before. -/
theorem C8_publish_failure_atomic (store : Store) (apiResult : PublishResponse)
    (content : List Char) (day : Nat) (topic : String) (now : String) (is_mock : Bool)
    (hfail : apiResult.success = false) :
    (post_content store apiResult content day topic now is_mock).1
      = PostOutcome.failed apiResult.error apiResult.detail ∧
    (post_content store apiResult content day topic now is_mock).2 = store ∧
    (post_content store apiResult content day topic now is_mock).2.history
      = store.history ∧
    get_current_day (post_content store apiResult content day topic now is_mock).2
      = get_current_day store ∧
    (post_content store apiResult content day topic now
        is_mock).2.state.pending_approval
      = store.state.pending_approval := by
  unfold post_content
  rw [hfail, if_neg (show ¬ (false = true) by simp)]
  exact ⟨rfl, rfl, rfl, rfl, rfl⟩

/-- C8 witness: a failed publish call on a store holding a pending draft. -/
theorem C8_witness :
    (post_content pendingStore
        { success := false, error := some "401 Client Error", detail := some "auth" }
        ['h', 'i'] 5 "T" "t3" false).1
      = PostOutcome.failed (some "401 Client Error") (some "auth") ∧
    (post_content pendingStore
        { success := false, error := some "401 Client Error", detail := some "auth" }
        ['h', 'i'] 5 "T" "t3" false).2 = pendingStore ∧
    (post_content pendingStore
        { success := false, error := some "401 Client Error", detail := some "auth" }
        ['h', 'i'] 5 "T" "t3" false).2.history = pendingStore.history ∧
    get_current_day (post_content pendingStore
        { success := false, error := some "401 Client Error", detail := some "auth" }
        ['h', 'i'] 5 "T" "t3" false).2 = get_current_day pendingStore ∧
    (post_content pendingStore
        { success := false, error := some "401 Client Error", detail := some "auth" }
        ['h', 'i'] 5 "T" "t3" false).2.state.pending_approval
      = pendingStore.state.pending_approval :=
  C8_publish_failure_atomic pendingStore
    { success := false, error := some "401 Client Error", detail := some "auth" }
    ['h', 'i'] 5 "T" "t3" false rfl

/-- C9: decision coverage.  Each of the five command words and their
one-letter abbreviations, case-insensitively, maps to its decision, and
every lowered input outside this ten-string set maps to approve. -/
theorem C9_decision_coverage (s : String) :
    ((toLowerStr s = "a" ∨ toLowerStr s = "approve") →
      get_user_decision s = "approve") ∧
    ((toLowerStr s = "r" ∨ toLowerStr s = "reject") →
      get_user_decision s = "reject") ∧
    ((toLowerStr s = "e" ∨ toLowerStr s = "edit") → get_user_decision s = "edit") ∧
    ((toLowerStr s = "s" ∨ toLowerStr s = "skip") → get_user_decision s = "skip") ∧
    ((toLowerStr s = "q" ∨ toLowerStr s = "quit") → get_user_decision s = "quit") ∧
    (toLowerStr s ≠ "a" → toLowerStr s ≠ "approve" →
     toLowerStr s ≠ "r" → toLowerStr s ≠ "reject" →
     toLowerStr s ≠ "e" → toLowerStr s ≠ "edit" →
     toLowerStr s ≠ "s" → toLowerStr s ≠ "skip" →
     toLowerStr s ≠ "q" → toLowerStr s ≠ "quit" →
      get_user_decision s = "approve") := by
  unfold get_user_decision
  refine ⟨?_, ?_, ?_, ?_, ?_, ?_⟩
  · rintro (h | h) <;> rw [h] <;> rfl
  · rintro (h | h) <;> rw [h] <;> rfl
  · rintro (h | h) <;> rw [h] <;> rfl
  · rintro (h | h) <;> rw [h] <;> rfl
  · rintro (h | h) <;> rw [h] <;> rfl
  · intro h1 h2 h3 h4 h5 h6 h7 h8 h9 h10
    unfold choice_map_get
    rw [if_neg h1, if_neg h2, if_neg h3, if_neg h4, if_neg h5, if_neg h6, if_neg h7,
      if_neg h8, if_neg h9, if_neg h10]

/-- C9 witness: a capitalized abbreviation, a capitalized word and an
unrecognized string. -/
theorem C9_witness :
    get_user_decision "R" = "reject" ∧
    get_user_decision "Quit" = "quit" ∧
    get_user_decision "hello" = "approve" := by
  refine ⟨(C9_decision_coverage "R").2.1 (Or.inl (by decide)),
    (C9_decision_coverage "Quit").2.2.2.2.1 (Or.inr (by decide)), ?_⟩
  exact (C9_decision_coverage "hello").2.2.2.2.2 (by decide) (by decide) (by decide)
    (by decide) (by decide) (by decide) (by decide) (by decide) (by decide) (by decide)

/-- C10: the pending-approval snapshot is persisted whenever the INITIAL
choice was approve or edit, regardless of the resolved decision, with the
snapshot content equal to the result content; in particular an edit
session answered with n at the post-edit confirmation returns decision
reject while the snapshot holds the edited content. -/
theorem C10_pending_persisted_on_initial_choice (store : Store) (cd : GenResult)
    (decision : String) (editedContent : List Char) (finalChoice : String)
    (fb : Option String) (now : String)
    (hdec : decision = "approve" ∨ decision = "edit") :
    (request_approval store cd decision editedContent finalChoice fb
        now).2.state.pending_approval
      = some
        { content :=
            (request_approval store cd decision editedContent finalChoice fb
              now).1.content
          day := cd.day
          topic := cd.topic
          approved_at := now } ∧
    (decision = "edit" → finalChoice = "n" →
      (request_approval store cd decision editedContent finalChoice fb
          now).1.decision = "reject" ∧
      (request_approval store cd decision editedContent finalChoice fb
          now).1.content = editedContent) := by
  constructor
  · rcases hdec with h | h <;> subst h <;> rfl
  · intro hedit hn
    subst hedit
    subst hn
    exact ⟨rfl, rfl⟩

/-- C10 witness: an edit session answered with n on a concrete draft. -/
theorem C10_witness :
    (request_approval initialStore
        { success := true, day := 1, topic := "What is AI?", content := ['h', 'i'] }
        "edit" ['o', 'k'] "n" none "t1").2.state.pending_approval
      = some
        { content :=
            (request_approval initialStore
              { success := true, day := 1, topic := "What is AI?",
                content := ['h', 'i'] }
              "edit" ['o', 'k'] "n" none "t1").1.content
          day := 1
          topic := "What is AI?"
          approved_at := "t1" } ∧
    ("edit" = "edit" → "n" = "n" →
      (request_approval initialStore
          { success := true, day := 1, topic := "What is AI?", content := ['h', 'i'] }
          "edit" ['o', 'k'] "n" none "t1").1.decision = "reject" ∧
      (request_approval initialStore
          { success := true, day := 1, topic := "What is AI?", content := ['h', 'i'] }
          "edit" ['o', 'k'] "n" none "t1").1.content = ['o', 'k']) :=
  C10_pending_persisted_on_initial_choice initialStore
    { success := true, day := 1, topic := "What is AI?", content := ['h', 'i'] }
    "edit" ['o', 'k'] "n" none "t1" (Or.inr rfl)

/-- C1: evaluation at the failing run.  On a fresh store with a day-1
curriculum entry, the user rejects (no feedback) and then approves; the
approve is published (history gains day 1), yet the route after the
publishing stage is still the regenerate back-edge because
`needs_regeneration`, set by the reject, is never reset.  With exactly
those two cycles of input the run has not reached a terminal edge, and a
third cycle ends it through the generation-failure exit with the
AlreadyPosted duplicate error rather than at the approve. -/
theorem C1_back_edge_taken_after_approve :
    (workflow_run curriculum1 true [rejectCycle, approveCycle]
        (run_initial_state 1 false) initialStore).1 = RunExit.stillLooping ∧
    (workflow_run curriculum1 true [rejectCycle, approveCycle, extraCycle]
        (run_initial_state 1 false) initialStore).1 = RunExit.generationError ∧
    ((workflow_run curriculum1 true [rejectCycle, approveCycle, extraCycle]
        (run_initial_state 1 false)
        initialStore).2.2.history.posted_items.map (·.day)) = [1] ∧
    ((workflow_run curriculum1 true [rejectCycle, approveCycle, extraCycle]
        (run_initial_state 1 false)
        initialStore).2.1.generated_content.map (·.duplicate)) = some true := by
  decide

end LinkedInAgent
